import Mathlib

/-!
Shallow embedding of `picow_access_point.c` (HTTP alarm-control server for the
Raspberry Pi Pico W).  Pure hardware bring-up (wifi, PWM slices, I2C display
driver) is out of scope; the alarm/actuator state machine, the request parsing,
the content generation and the connection bookkeeping are embedded faithfully.
Times are microsecond timestamps modelled as `Int`; within one call of
`update_alarm` the several `get_absolute_time()` reads are modelled as a single
instant `now`.  Network buffers are modelled as `List Char` without embedded
NUL bytes; C strings that the code carves out of the buffer by writing NUL
bytes become `take`/`drop` slices.
-/

/-- `BEEP_DURATION_MS`: duration of each beep in ms (line 33). -/
def BEEP_DURATION_MS : Nat := 200

/-- `BEEP_INTERVAL_MS`: interval between LED/buzzer toggles in ms (line 34). -/
def BEEP_INTERVAL_MS : Nat := 100

/-- `PWM_FREQ_HZ` (line 30). -/
def PWM_FREQ_HZ : Nat := 1000

/-- `PWM_WRAP = (uint16_t)(125000000 / (PWM_FREQ_HZ * CLOCK_DIV))` with
`CLOCK_DIV = 2.0`; the float division is exact, giving 62500. -/
def PWM_WRAP : Nat := 125000000 / (PWM_FREQ_HZ * 2)

/-- `HTTP_GET` method token (line 52). -/
def HTTP_GET : String := "GET"

/-- `ALARM_CONTROL`, the control endpoint path (line 60). -/
def ALARM_CONTROL : String := "/alarm"

/-- `IP_GW`, the gateway address, also built by `IP4_ADDR(&state->gw,192,168,4,1)`
and rendered back by `ipaddr_ntoa` (lines 45, 453). -/
def IP_GW : String := "192.168.4.1"

/-- Capacity of `con_state->headers[128]`. -/
def HEADERS_CAPACITY : Nat := 128

/-- Capacity of `con_state->result[256]`. -/
def RESULT_CAPACITY : Nat := 256

/-- `TCP_SERVER_T` (lines 77-85), restricted to the fields the core logic
reads or writes; the pcb handle and `gw` are passed separately. -/
structure TCP_SERVER_T where
  complete : Bool
  alarm_active : Bool
  next_toggle_time : Int
  beep_active : Bool
  beep_end_time : Int
  deriving DecidableEq, Repr

/-- Hardware outputs driven by `update_alarm`: the red LED GPIO level, the
buzzer PWM level, and the function-static `led_state` variable (line 126). -/
structure HwState where
  led_gpio : Bool
  pwm_level : Nat
  led_state : Bool
  deriving DecidableEq, Repr

/-- `update_alarm` (lines 122-160).  `absolute_time_diff_us(now, t) <= 0`
is `t - now ≤ 0`; `delayed_by_us(now, d)` is `now + d`.  Returns the new
server state, the new hardware outputs, and the two display lines. -/
def update_alarm (now : Int) (st : TCP_SERVER_T) (hw : HwState) :
    TCP_SERVER_T × HwState × String × String :=
  if st.alarm_active then
    let s1 :=
      if st.next_toggle_time - now ≤ 0 then
        let led := !hw.led_state
        let hw1 := { hw with led_state := led, led_gpio := led }
        if led then
          ({ st with beep_active := true,
                     beep_end_time := now + (BEEP_DURATION_MS : Int) * 1000,
                     next_toggle_time := now + (BEEP_INTERVAL_MS : Int) * 1000 },
           { hw1 with pwm_level := PWM_WRAP / 2 })
        else
          ({ st with beep_active := false,
                     next_toggle_time := now + (BEEP_INTERVAL_MS : Int) * 1000 },
           { hw1 with pwm_level := 0 })
      else (st, hw)
    let s2 :=
      if s1.1.beep_active ∧ s1.1.beep_end_time - now ≤ 0 then
        ({ s1.1 with beep_active := false }, { s1.2 with pwm_level := 0 })
      else s1
    (s2.1, s2.2, "ALARME", "EVACUAR")
  else
    ({ st with beep_active := false },
     { hw with led_gpio := false, pwm_level := 0 },
     "Sistema", "em repouso")

/-- Characters skipped by a `%d` conversion of `sscanf` before the number. -/
def isSpaceChar (c : Char) : Bool :=
  c = ' ' || c = '\t' || c = '\n' || c = '\r' || c = '\x0b' || c = '\x0c'

/-- Decimal accumulation of a digit list, most significant first. -/
def decValAux : Nat → List Char → Nat
  | acc, [] => acc
  | acc, c :: cs => decValAux (acc * 10 + (c.toNat - 48)) cs

/-- `sscanf(params, "alarm=%d", &alarm_param) == 1` (line 211): the literal
prefix `alarm=` must match exactly, then `%d` skips whitespace, reads an
optional sign and at least one digit; trailing characters are ignored.
Returns the parsed integer, or `none` when fewer than one conversion
succeeds. -/
def sscanf_alarm (s : List Char) : Option Int :=
  if ("alarm=".toList).isPrefixOf s then
    let r0 := (s.drop 6).dropWhile isSpaceChar
    let signRest : Bool × List Char :=
      match r0 with
      | '-' :: t => (true, t)
      | '+' :: t => (false, t)
      | _ => (false, r0)
    let ds := signRest.2.takeWhile Char.isDigit
    if ds.isEmpty then none
    else
      let v : Int := Int.ofNat (decValAux 0 ds)
      some (if signRest.1 then -v else v)
  else none

/-- `ALARM_CONTROL_BODY` (lines 54-58) instantiated by
`snprintf(result, max, ALARM_CONTROL_BODY, status, target, label)`. -/
def ALARM_CONTROL_BODY (status : String) (target : Nat) (label : String) :
    String :=
  "<html><body style=\"text-align:center;margin-top:50px\">" ++
  "<h1>Alarme</h1>" ++
  "<p>" ++ status ++ "</p>" ++
  "<a href=\"?alarm=" ++ toString target ++
  "\" style=\"background:#4CAF50;color:white;padding:5px 10px;text-decoration:none\">" ++
  label ++ "</a>" ++
  "</body></html>"

/-- `HTTP_RESPONSE_HEADERS` (line 53) instantiated with a status code and the
content length. -/
def HTTP_RESPONSE_HEADERS (status : Nat) (content_length : Nat) : String :=
  "HTTP/1.1 " ++ toString status ++ " OK\nContent-Length: " ++
  toString content_length ++
  "\nContent-Type: text/html; charset=utf-8\nConnection: close\n\n"

/-- `HTTP_RESPONSE_REDIRECT` (line 61) instantiated with the gateway address. -/
def HTTP_RESPONSE_REDIRECT (gw : String) : String :=
  "HTTP/1.1 302 Redirect\nLocation: http://" ++ gw ++ ALARM_CONTROL ++ "\n\n"

/-- `alarm_control_content` (lines 205-225).  `strncmp(request, ALARM_CONTROL,
sizeof(ALARM_CONTROL)-1) == 0` is a 6-character prefix test.  When the query
parses, `state->alarm_active = alarm_param` converts the C `int` to `bool`,
i.e. `alarm_active := (n ≠ 0)`.  The function returns the mutated state and
the rendered body; the C `len` return value is the body's length (the body is
far below `max_result_len`, so `snprintf` never truncates it). -/
def alarm_control_content (request : List Char) (params : Option (List Char))
    (st : TCP_SERVER_T) : TCP_SERVER_T × String :=
  if (ALARM_CONTROL.toList).isPrefixOf request then
    let st1 :=
      match params with
      | none => st
      | some q =>
        match sscanf_alarm q with
        | some n => { st with alarm_active := decide (n ≠ 0) }
        | none => st
    if st1.alarm_active then
      (st1, ALARM_CONTROL_BODY "ATIVADO" 0 "Desligar")
    else
      (st1, ALARM_CONTROL_BODY "DESATIVADO" 1 "Ligar")
  else (st, "")

/-- The query-splitting logic of `tcp_server_recv` (lines 245-257).
`params = strchr(request, '?')` points at the `?` itself, so the `*params`
guard can only see the non-NUL character `?`: the `else params = NULL`
branch is dead.  `space = strchr(request, ' ')` scans the original string
(before the `?` is overwritten); the code then writes NUL over the `?` and,
when present, over the first space.  The resulting C strings are: the path
(up to the first NUL now in the buffer) and the params (from after the `?`
to the next NUL). -/
def splitRequest (request : List Char) : List Char × Option (List Char) :=
  match request.findIdx? (fun c => c = '?') with
  | none => (request, none)
  | some i =>
    if request.getD i '\x00' ≠ '\x00' then
      match request.findIdx? (fun c => c = ' ') with
      | none => (request.take i, some (request.drop (i + 1)))
      | some j =>
        if j < i then (request.take j, some (request.drop (i + 1)))
        else (request.take i, some ((request.drop (i + 1)).take (j - (i + 1))))
    else (request, none)

/-- Outcome of one `tcp_server_recv` invocation, as observed on the wire. -/
inductive RecvOutcome
  | noResponse
  | closedTooLargeResult
  | closedTooLargeHeader
  | responded (header : String) (body : Option String)
  deriving DecidableEq, Repr

/-- Byte strings actually passed to `tcp_write` for an outcome. -/
def RecvOutcome.writes : RecvOutcome → List String
  | .responded h b => h :: b.toList
  | _ => []

/-- Response construction of `tcp_server_recv` (lines 265-301): the
too-large-result check, the 200 header (with its own capacity check) or the
302 redirect, then the header and body writes.  Returns the outcome and
`header_len`. -/
def respondToGet (gw : String) (result_len : Nat) (body : String) :
    RecvOutcome × Nat :=
  if result_len > RESULT_CAPACITY - 1 then (.closedTooLargeResult, 0)
  else if result_len > 0 then
    let hdr := HTTP_RESPONSE_HEADERS 200 result_len
    if hdr.length > HEADERS_CAPACITY - 1 then (.closedTooLargeHeader, hdr.length)
    else (.responded hdr (some body), hdr.length)
  else
    let hdr := HTTP_RESPONSE_REDIRECT gw
    (.responded hdr none, hdr.length)

/-- Result of one `tcp_server_recv` invocation. -/
structure RecvResult where
  state : TCP_SERVER_T
  outcome : RecvOutcome
  header_len : Nat
  result_len : Nat
  deriving DecidableEq, Repr

/-- `tcp_server_recv` (lines 227-307) on a data-bearing segment: copy at most
`sizeof(headers)-1 = 127` bytes, require the `GET` prefix (anything else is
dropped with no write), skip `sizeof(HTTP_GET) = 4` bytes, split path and
query, generate content, and build the response. -/
def tcp_server_recv (gw : String) (st : TCP_SERVER_T) (buf : List Char) :
    RecvResult :=
  let data := buf.take (HEADERS_CAPACITY - 1)
  if (HTTP_GET.toList).isPrefixOf data then
    let request := data.drop (HTTP_GET.length + 1)
    let pr := splitRequest request
    let c := alarm_control_content pr.1 pr.2 st
    let result_len := c.2.length
    let r := respondToGet gw result_len c.2
    ⟨c.1, r.1, r.2, result_len⟩
  else ⟨st, .noResponse, 0, 0⟩

/-- `TCP_CONNECT_STATE_T` (lines 87-96), restricted to the bookkeeping
fields. -/
structure TCP_CONNECT_STATE_T where
  sent_len : Nat
  header_len : Nat
  result_len : Nat
  deriving DecidableEq, Repr

/-- `tcp_server_sent` (lines 194-203): accumulate the acknowledged byte count
and close gracefully once it reaches `header_len + result_len`.  Returns the
new connection state and whether the connection was closed. -/
def tcp_server_sent (cs : TCP_CONNECT_STATE_T) (len : Nat) :
    TCP_CONNECT_STATE_T × Bool :=
  let cs1 := { cs with sent_len := cs.sent_len + len }
  (cs1, decide (cs.header_len + cs.result_len ≤ cs1.sent_len))

/-- Events delivered by lwIP to a live connection. -/
inductive ConnEvent
  | recv (buf : List Char)
  | ack (len : Nat)
  deriving Repr

/-- One connection-level event step: a receive event runs `tcp_server_recv`
(which on a successful response sets `sent_len = 0` and the two lengths,
lines 273-287); an acknowledgment event runs `tcp_server_sent`. -/
def connStep (gw : String) (s : TCP_CONNECT_STATE_T × TCP_SERVER_T)
    (e : ConnEvent) : TCP_CONNECT_STATE_T × TCP_SERVER_T :=
  match e with
  | .recv buf =>
    let r := tcp_server_recv gw s.2 buf
    match r.outcome with
    | .responded _ _ =>
      (⟨0, r.header_len, r.result_len⟩, r.state)
    | _ => (s.1, r.state)
  | .ack len => ((tcp_server_sent s.1 len).1, s.2)

/-- Run a list of connection events from an initial state. -/
def runConn (gw : String) (s : TCP_CONNECT_STATE_T × TCP_SERVER_T)
    (es : List ConnEvent) : TCP_CONNECT_STATE_T × TCP_SERVER_T :=
  es.foldl (connStep gw) s

/-- Initial server state after `main`'s initialisation (lines 441-443):
alarm off, beep off. -/
def initServerState : TCP_SERVER_T :=
  { complete := false, alarm_active := false, next_toggle_time := 0,
    beep_active := false, beep_end_time := 0 }

/-- An armed server state whose toggle deadline has been reached (a tick at
time 0 fires the toggle). -/
def armedServerState : TCP_SERVER_T :=
  { complete := false, alarm_active := true, next_toggle_time := 0,
    beep_active := false, beep_end_time := 0 }

/-- Hardware state with all outputs off and the static `led_state` false. -/
def hwOff : HwState :=
  { led_gpio := false, pwm_level := 0, led_state := false }

/-- `update_alarm` never changes `alarm_active`: only the content generator
toggles it. -/
theorem update_alarm_alarm_active (now : Int) (st : TCP_SERVER_T)
    (hw : HwState) : (update_alarm now st hw).1.alarm_active = st.alarm_active := by
  unfold update_alarm
  dsimp only
  split_ifs <;> rfl

/-- `alarm_control_content` never changes `beep_active`: its only mutation is
the `alarm_active` assignment. -/
theorem alarm_control_content_beep_active (request : List Char)
    (params : Option (List Char)) (st : TCP_SERVER_T) :
    (alarm_control_content request params st).1.beep_active = st.beep_active := by
  unfold alarm_control_content
  rcases params with _ | q
  · dsimp only
    split
    · split <;> rfl
    · rfl
  · rcases hq : sscanf_alarm q with _ | n <;>
      simp only [hq] <;> split <;>
      first
      | rfl
      | (split <;> rfl)

/-- When the alarm is disabled, one `update_alarm` tick forces the beep flag,
the buzzer level and the LED off. -/
theorem update_alarm_disabled (now : Int) (st : TCP_SERVER_T) (hw : HwState)
    (h : st.alarm_active = false) :
    (update_alarm now st hw).1.beep_active = false ∧
    (update_alarm now st hw).2.1.pwm_level = 0 ∧
    (update_alarm now st hw).2.1.led_gpio = false := by
  simp [update_alarm, h]

/-- The control-endpoint test of `alarm_control_content` is a prefix match,
and `ALARM_CONTROL` is a prefix of itself. -/
theorem alarm_prefix_self :
    (ALARM_CONTROL.toList).isPrefixOf ALARM_CONTROL.toList = true := by decide

set_option maxRecDepth 8192 in
/-- Claim C1, counterexample: the path test is `strncmp(request, "/alarm", 6)`,
a prefix match, so the request `GET /alarmzzz?x HTTP/1.1`, whose path
`/alarmzzz` is not exactly the control endpoint, still produces a non-empty
body and a 200 response rather than the claimed 302 redirect. -/
theorem c1_counterexample :
    (splitRequest ((("GET /alarmzzz?x HTTP/1.1".toList).take
        (HEADERS_CAPACITY - 1)).drop (HTTP_GET.length + 1))).1 ≠
      ALARM_CONTROL.toList ∧
    (tcp_server_recv IP_GW initServerState
        ("GET /alarmzzz?x HTTP/1.1".toList)).result_len ≠ 0 ∧
    (tcp_server_recv IP_GW initServerState
        ("GET /alarmzzz?x HTTP/1.1".toList)).outcome =
      .responded (HTTP_RESPONSE_HEADERS 200 205)
        (some (ALARM_CONTROL_BODY "DESATIVADO" 1 "Ligar")) := by
  refine ⟨by decide, by decide, by decide⟩

/-- Claim C1 (amended): for every GET request whose parsed path does not have
the control endpoint `/alarm` as a prefix, the content generator returns an
empty body (length 0) and leaves the state untouched, and the server responds
with the 302 redirect whose `Location` is the control endpoint on the
configured gateway address, regardless of alarm state. -/
theorem c1_nonprefix_redirect (gw : String) (st : TCP_SERVER_T)
    (buf : List Char)
    (hget : (HTTP_GET.toList).isPrefixOf (buf.take (HEADERS_CAPACITY - 1)) =
      true)
    (hpath : (ALARM_CONTROL.toList).isPrefixOf
      (splitRequest ((buf.take (HEADERS_CAPACITY - 1)).drop
        (HTTP_GET.length + 1))).1 = false) :
    alarm_control_content
      (splitRequest ((buf.take (HEADERS_CAPACITY - 1)).drop
        (HTTP_GET.length + 1))).1
      (splitRequest ((buf.take (HEADERS_CAPACITY - 1)).drop
        (HTTP_GET.length + 1))).2 st = (st, "") ∧
    tcp_server_recv gw st buf =
      ⟨st, .responded (HTTP_RESPONSE_REDIRECT gw) none,
        (HTTP_RESPONSE_REDIRECT gw).length, 0⟩ := by
  have hc : alarm_control_content
      (splitRequest ((buf.take (HEADERS_CAPACITY - 1)).drop
        (HTTP_GET.length + 1))).1
      (splitRequest ((buf.take (HEADERS_CAPACITY - 1)).drop
        (HTTP_GET.length + 1))).2 st = (st, "") := by
    have hnp : ¬ ((ALARM_CONTROL.toList).isPrefixOf
        (splitRequest ((buf.take (HEADERS_CAPACITY - 1)).drop
          (HTTP_GET.length + 1))).1 = true) := by
      simp only [hpath]
      exact Bool.false_ne_true
    unfold alarm_control_content
    rw [if_neg hnp]
  refine ⟨hc, ?_⟩
  unfold tcp_server_recv
  rw [if_pos hget]
  dsimp only
  rw [hc]
  rfl

set_option maxRecDepth 8192 in
/-- Claim C1, witness: `GET /x HTTP/1.1` from the initial state gets the
302 redirect to the gateway's control endpoint. -/
theorem c1_witness :
    alarm_control_content
      (splitRequest ((("GET /x HTTP/1.1".toList).take
        (HEADERS_CAPACITY - 1)).drop (HTTP_GET.length + 1))).1
      (splitRequest ((("GET /x HTTP/1.1".toList).take
        (HEADERS_CAPACITY - 1)).drop (HTTP_GET.length + 1))).2
      initServerState = (initServerState, "") ∧
    tcp_server_recv IP_GW initServerState ("GET /x HTTP/1.1".toList) =
      ⟨initServerState, .responded (HTTP_RESPONSE_REDIRECT IP_GW) none,
        (HTTP_RESPONSE_REDIRECT IP_GW).length, 0⟩ :=
  c1_nonprefix_redirect IP_GW initServerState ("GET /x HTTP/1.1".toList)
    (by decide) (by decide)

/-- Claim C2: a query that parses as the toggle format `alarm=<0|1>` sets
`alarm_active` to that boolean before rendering, and the rendered body's
status text, button label and button target all reflect the post-toggle
state, the target being the negation of the now-current `alarm_active`. -/
theorem c2_toggle_reflects_post_state (st : TCP_SERVER_T) (q : List Char)
    (b : Bool) (h : sscanf_alarm q = some (cond b 1 0)) :
    (alarm_control_content ALARM_CONTROL.toList (some q) st).1.alarm_active =
      b ∧
    (alarm_control_content ALARM_CONTROL.toList (some q) st).2 =
      ALARM_CONTROL_BODY (cond b "ATIVADO" "DESATIVADO") (cond (!b) 1 0)
        (cond b "Desligar" "Ligar") := by
  unfold alarm_control_content
  simp only [h]
  cases b
  · split
    · split
      · next hb => simp at hb
      · exact ⟨rfl, rfl⟩
    · next hp => exact absurd alarm_prefix_self hp
  · split
    · split
      · exact ⟨rfl, rfl⟩
      · next hb => simp at hb
    · next hp => exact absurd alarm_prefix_self hp

/-- Claim C2, witness: `alarm=1` on the initial state arms the alarm and
renders the ATIVADO page whose button proposes `?alarm=0`. -/
theorem c2_witness :
    (alarm_control_content ALARM_CONTROL.toList (some ("alarm=1".toList))
      initServerState).1.alarm_active = true ∧
    (alarm_control_content ALARM_CONTROL.toList (some ("alarm=1".toList))
      initServerState).2 =
      ALARM_CONTROL_BODY "ATIVADO" 0 "Desligar" :=
  c2_toggle_reflects_post_state initServerState ("alarm=1".toList) true
    (by decide)

/-- Claim C3, counterexample: from an armed state that is mid-beep
(`beep_active = true`), the request `GET /alarm?alarm=0` toggles
`alarm_active` to false but leaves `beep_active` true — the toggle mutates
only `alarm_active`, so the invariant `beep_active → alarm_active` is broken
until the next `update_alarm` tick, and the outputs are not forced off as an
unconditional side effect of the toggle. -/
theorem c3_counterexample :
    (alarm_control_content ALARM_CONTROL.toList (some ("alarm=0".toList))
      { complete := false, alarm_active := true, next_toggle_time := 0,
        beep_active := true, beep_end_time := 1000 }).1.alarm_active = false ∧
    (alarm_control_content ALARM_CONTROL.toList (some ("alarm=0".toList))
      { complete := false, alarm_active := true, next_toggle_time := 0,
        beep_active := true, beep_end_time := 1000 }).1.beep_active = true := by
  exact ⟨rfl, rfl⟩

/-- Claim C3 (amended): `update_alarm` preserves the invariant
`beep_active → alarm_active`, but the request toggle does not: the content
generator never touches `beep_active`, so after `GET /alarm?alarm=0` the
alarm is off while the beep flag is unchanged; the beep flag and the
actuator outputs are forced off only at the next `update_alarm` tick, not
as a side effect of the toggle itself. -/
theorem c3_invariant_at_next_tick (st : TCP_SERVER_T) (hw : HwState)
    (now : Int) (request : List Char) (params : Option (List Char))
    (hb : (update_alarm now st hw).1.beep_active = true) :
    (update_alarm now st hw).1.alarm_active = true ∧
    (alarm_control_content request params st).1.beep_active =
      st.beep_active ∧
    (alarm_control_content ALARM_CONTROL.toList (some ("alarm=0".toList))
      st).1.alarm_active = false ∧
    (update_alarm now (alarm_control_content ALARM_CONTROL.toList
      (some ("alarm=0".toList)) st).1 hw).1.beep_active = false ∧
    (update_alarm now (alarm_control_content ALARM_CONTROL.toList
      (some ("alarm=0".toList)) st).1 hw).2.1.pwm_level = 0 ∧
    (update_alarm now (alarm_control_content ALARM_CONTROL.toList
      (some ("alarm=0".toList)) st).1 hw).2.1.led_gpio = false := by
  have hoff : (alarm_control_content ALARM_CONTROL.toList
      (some ("alarm=0".toList)) st).1.alarm_active = false := rfl
  refine ⟨?_, alarm_control_content_beep_active request params st, hoff,
    (update_alarm_disabled now _ hw hoff).1,
    (update_alarm_disabled now _ hw hoff).2.1,
    (update_alarm_disabled now _ hw hoff).2.2⟩
  rw [update_alarm_alarm_active]
  cases ha : st.alarm_active
  · have := (update_alarm_disabled now st hw ha).1
    rw [hb] at this
    exact absurd this (by simp)
  · rfl

/-- Claim C3, witness: a tick at time 0 on the armed state turns the beep on;
from there, `GET /alarm?alarm=0` disarms without touching the beep flag, and
the following tick forces beep, buzzer and LED off. -/
theorem c3_witness :
    (update_alarm 0 armedServerState hwOff).1.alarm_active = true ∧
    (alarm_control_content [] none armedServerState).1.beep_active =
      armedServerState.beep_active ∧
    (alarm_control_content ALARM_CONTROL.toList (some ("alarm=0".toList))
      armedServerState).1.alarm_active = false ∧
    (update_alarm 0 (alarm_control_content ALARM_CONTROL.toList
      (some ("alarm=0".toList)) armedServerState).1 hwOff).1.beep_active =
      false ∧
    (update_alarm 0 (alarm_control_content ALARM_CONTROL.toList
      (some ("alarm=0".toList)) armedServerState).1 hwOff).2.1.pwm_level =
      0 ∧
    (update_alarm 0 (alarm_control_content ALARM_CONTROL.toList
      (some ("alarm=0".toList)) armedServerState).1 hwOff).2.1.led_gpio =
      false :=
  c3_invariant_at_next_tick armedServerState hwOff 0 [] none (by decide)

/-- Claim C4, counterexample: `BEEP_DURATION_MS = 200` is not shorter than
`BEEP_INTERVAL_MS = 100`; after an armed tick at time 0 turns the output on,
the scheduled beep-end deadline (200000 us) lies strictly after the next
toggle deadline (100000 us), so the pulse is never forced off before the
next toggle fires. -/
theorem c4_counterexample :
    ¬ (BEEP_DURATION_MS < BEEP_INTERVAL_MS) ∧
    BEEP_DURATION_MS = 200 ∧ BEEP_INTERVAL_MS = 100 ∧
    (update_alarm 0 armedServerState hwOff).1.beep_end_time = 200000 ∧
    (update_alarm 0 armedServerState hwOff).1.next_toggle_time = 100000 ∧
    (update_alarm 0 armedServerState hwOff).1.next_toggle_time <
      (update_alarm 0 armedServerState hwOff).1.beep_end_time := by
  refine ⟨by decide, rfl, rfl, by decide, by decide, by decide⟩

/-- Claim C4 (amended): the configured pulse duration (200 ms) is strictly
LONGER than the toggle interval (100 ms).  A toggle that turns the output on
schedules `beep_end_time = now + 200 ms` and `next_toggle_time = now +
100 ms`, so the pulse-end deadline lies strictly after the next toggle;
nonetheless, when no toggle is due and a live pulse's deadline has been
reached, `update_alarm` forces the pulse output off. -/
theorem c4_pulse_longer_than_interval (now now2 : Int)
    (st st2 : TCP_SERVER_T) (hw hw2 : HwState)
    (ha : st.alarm_active = true) (ht : st.next_toggle_time - now ≤ 0)
    (hl : hw.led_state = false)
    (ha2 : st2.alarm_active = true)
    (ht2 : ¬ (st2.next_toggle_time - now2 ≤ 0))
    (hb2 : st2.beep_active = true) (he2 : st2.beep_end_time - now2 ≤ 0) :
    BEEP_INTERVAL_MS < BEEP_DURATION_MS ∧
    (update_alarm now st hw).1.beep_end_time =
      now + (BEEP_DURATION_MS : Int) * 1000 ∧
    (update_alarm now st hw).1.next_toggle_time =
      now + (BEEP_INTERVAL_MS : Int) * 1000 ∧
    (update_alarm now st hw).1.next_toggle_time <
      (update_alarm now st hw).1.beep_end_time ∧
    (update_alarm now2 st2 hw2).1.beep_active = false ∧
    (update_alarm now2 st2 hw2).2.1.pwm_level = 0 := by
  have h2 : ¬ ((BEEP_DURATION_MS : Int) * 1000 ≤ 0) := by
    norm_num [BEEP_DURATION_MS]
  have hu : (update_alarm now st hw).1 =
      { st with beep_active := true,
                beep_end_time := now + (BEEP_DURATION_MS : Int) * 1000,
                next_toggle_time := now + (BEEP_INTERVAL_MS : Int) * 1000 } := by
    unfold update_alarm
    rw [if_pos ha, if_pos ht]
    simp only [hl]
    simp [h2]
  have hu2 : (update_alarm now2 st2 hw2).1.beep_active = false ∧
      (update_alarm now2 st2 hw2).2.1.pwm_level = 0 := by
    unfold update_alarm
    rw [if_pos ha2, if_neg ht2]
    simp [hb2, he2]
  refine ⟨by decide, ?_, ?_, ?_, hu2.1, hu2.2⟩
  · rw [hu]
  · rw [hu]
  · rw [hu]
    norm_num [BEEP_DURATION_MS, BEEP_INTERVAL_MS]

/-- Claim C4, witness: a toggle-on at time 0 (armed, deadline reached, LED
previously off) and a pulse-expiry tick at time 10 on a state whose beep
deadline has passed but whose next toggle has not. -/
theorem c4_witness :
    BEEP_INTERVAL_MS < BEEP_DURATION_MS ∧
    (update_alarm 0 armedServerState hwOff).1.beep_end_time =
      0 + (BEEP_DURATION_MS : Int) * 1000 ∧
    (update_alarm 0 armedServerState hwOff).1.next_toggle_time =
      0 + (BEEP_INTERVAL_MS : Int) * 1000 ∧
    (update_alarm 0 armedServerState hwOff).1.next_toggle_time <
      (update_alarm 0 armedServerState hwOff).1.beep_end_time ∧
    (update_alarm 10
      { complete := false, alarm_active := true, next_toggle_time := 100,
        beep_active := true, beep_end_time := 5 } hwOff).1.beep_active =
      false ∧
    (update_alarm 10
      { complete := false, alarm_active := true, next_toggle_time := 100,
        beep_active := true, beep_end_time := 5 } hwOff).2.1.pwm_level =
      0 :=
  c4_pulse_longer_than_interval 0 10 armedServerState
    { complete := false, alarm_active := true, next_toggle_time := 100,
      beep_active := true, beep_end_time := 5 } hwOff hwOff
    (by decide) (by decide) (by decide) (by decide) (by decide) (by decide)
    (by decide)

/-- Claim C5, counterexample: for the buffer `GET /alarm?` (a `?` at the end
of the buffer), the splitting logic produces `some []` — an empty query
parameter that is passed to the content generator as a non-NULL pointer —
not an absent one: `strchr` returns a pointer to the `?` itself, so the
`*params` guard never takes the `params = NULL` branch. -/
theorem c5_counterexample :
    (splitRequest ((("GET /alarm?".toList).take
      (HEADERS_CAPACITY - 1)).drop (HTTP_GET.length + 1))).2 = some [] ∧
    (splitRequest ((("GET /alarm?".toList).take
      (HEADERS_CAPACITY - 1)).drop (HTTP_GET.length + 1))).2 ≠ none := by
  exact ⟨by decide, by decide⟩

/-- Claim C5 (amended): a `?` immediately followed by end-of-buffer yields a
PRESENT but EMPTY query parameter (`some []`, the C empty string), not an
absent one; `sscanf` fails on the empty string, so no toggle occurs and the
request is processed exactly like a no-parameter request (same state, same
body). -/
theorem c5_empty_query_is_present (st : TCP_SERVER_T)
    (request : List Char) :
    splitRequest ("/alarm?".toList) = ("/alarm".toList, some []) ∧
    sscanf_alarm [] = none ∧
    alarm_control_content request (some []) st =
      alarm_control_content request none st := by
  refine ⟨by decide, rfl, ?_⟩
  unfold alarm_control_content
  split <;> rfl

/-- Claim C5, witness: the equivalence evaluated on the control path and the
initial state. -/
theorem c5_witness :
    splitRequest ("/alarm?".toList) = ("/alarm".toList, some []) ∧
    sscanf_alarm [] = none ∧
    alarm_control_content ALARM_CONTROL.toList (some []) initServerState =
      alarm_control_content ALARM_CONTROL.toList none initServerState :=
  c5_empty_query_is_present initServerState ALARM_CONTROL.toList

/-- Claim C6: a received buffer that does not begin with `GET` generates no
content and writes nothing: the state is unchanged, the outcome carries no
response, and the connection stays open for its next event. -/
theorem c6_non_get_silently_dropped (gw : String) (st : TCP_SERVER_T)
    (buf : List Char)
    (h : (HTTP_GET.toList).isPrefixOf (buf.take (HEADERS_CAPACITY - 1)) =
      false) :
    tcp_server_recv gw st buf = ⟨st, .noResponse, 0, 0⟩ ∧
    (tcp_server_recv gw st buf).outcome.writes = [] := by
  have hnp : ¬ ((HTTP_GET.toList).isPrefixOf
      (buf.take (HEADERS_CAPACITY - 1)) = true) := by
    simp only [h]
    exact Bool.false_ne_true
  have ht : tcp_server_recv gw st buf = ⟨st, .noResponse, 0, 0⟩ := by
    unfold tcp_server_recv
    rw [if_neg hnp]
  exact ⟨ht, by rw [ht]; rfl⟩

/-- Claim C6, witness: a `POST` request is dropped with no response. -/
theorem c6_witness :
    tcp_server_recv IP_GW initServerState
      ("POST /alarm HTTP/1.1".toList) =
      ⟨initServerState, .noResponse, 0, 0⟩ ∧
    (tcp_server_recv IP_GW initServerState
      ("POST /alarm HTTP/1.1".toList)).outcome.writes = [] :=
  c6_non_get_silently_dropped IP_GW initServerState
    ("POST /alarm HTTP/1.1".toList) (by decide)

set_option maxRecDepth 16384 in
/-- Claim C7, counterexample: `sent_len` does NOT only increase over the
connection's lifetime.  After answering `GET /alarm HTTP/1.1` and receiving
an acknowledgment of 10 bytes (which does not close the connection, since
10 < header_len + result_len), a second pipelined `GET /alarm HTTP/1.1`
resets `sent_len` from 10 back to 0 (line 287 of the source). -/
theorem c7_counterexample :
    (runConn IP_GW (⟨0, 0, 0⟩, initServerState)
      [.recv ("GET /alarm HTTP/1.1".toList), .ack 10]).1.sent_len = 10 ∧
    (tcp_server_sent (runConn IP_GW (⟨0, 0, 0⟩, initServerState)
      [.recv ("GET /alarm HTTP/1.1".toList)]).1 10).2 = false ∧
    (runConn IP_GW (⟨0, 0, 0⟩, initServerState)
      [.recv ("GET /alarm HTTP/1.1".toList), .ack 10,
       .recv ("GET /alarm HTTP/1.1".toList)]).1.sent_len = 0 ∧
    ¬ ((runConn IP_GW (⟨0, 0, 0⟩, initServerState)
        [.recv ("GET /alarm HTTP/1.1".toList), .ack 10]).1.sent_len ≤
      (runConn IP_GW (⟨0, 0, 0⟩, initServerState)
        [.recv ("GET /alarm HTTP/1.1".toList), .ack 10,
         .recv ("GET /alarm HTTP/1.1".toList)]).1.sent_len) := by
  refine ⟨by decide, by decide, by decide, by decide⟩

/-- Claim C7 (amended): each acknowledgment event only increases `sent_len`
(by the acknowledged count), and the sent handler closes the connection
exactly when `sent_len` reaches `header_len + result_len`; however,
`sent_len` is reset to 0 whenever a further request is received and
answered on the same connection, so it is not monotone across the whole
connection lifetime. -/
theorem c7_ack_monotone_reset_on_recv (cs : TCP_CONNECT_STATE_T) (len : Nat)
    (gw : String) (s : TCP_CONNECT_STATE_T × TCP_SERVER_T) (buf : List Char)
    (hdr : String) (body : Option String)
    (h : (tcp_server_recv gw s.2 buf).outcome = .responded hdr body) :
    (tcp_server_sent cs len).1.sent_len = cs.sent_len + len ∧
    cs.sent_len ≤ (tcp_server_sent cs len).1.sent_len ∧
    ((tcp_server_sent cs len).2 = true ↔
      cs.header_len + cs.result_len ≤ cs.sent_len + len) ∧
    (connStep gw s (.recv buf)).1.sent_len = 0 := by
  refine ⟨rfl, by simp [tcp_server_sent], by simp [tcp_server_sent], ?_⟩
  unfold connStep
  simp only [h]

set_option maxRecDepth 16384 in
/-- Claim C7, witness: an acknowledgment of 2 bytes on a connection that has
already had 5 bytes acknowledged (header 3, body 4 bytes pending), and a
fresh `GET /alarm HTTP/1.1` arriving on the same connection. -/
theorem c7_witness :
    (tcp_server_sent ⟨5, 3, 4⟩ 2).1.sent_len = 5 + 2 ∧
    (5 : Nat) ≤ (tcp_server_sent ⟨5, 3, 4⟩ 2).1.sent_len ∧
    ((tcp_server_sent ⟨5, 3, 4⟩ 2).2 = true ↔ 3 + 4 ≤ 5 + 2) ∧
    (connStep IP_GW (⟨5, 3, 4⟩, initServerState)
      (.recv ("GET /alarm HTTP/1.1".toList))).1.sent_len = 0 :=
  c7_ack_monotone_reset_on_recv ⟨5, 3, 4⟩ 2 IP_GW
    (⟨5, 3, 4⟩, initServerState) ("GET /alarm HTTP/1.1".toList)
    (HTTP_RESPONSE_HEADERS 200 205)
    (some (ALARM_CONTROL_BODY "DESATIVADO" 1 "Ligar")) (by decide)

/-- Claim C8: whenever the generated body length exceeds what the body
buffer can hold (`result_len > sizeof(result) - 1`), the response builder
closes the connection with the content-too-large outcome before anything is
written: no header and no body bytes reach `tcp_write`, so no partial body
is ever sent. -/
theorem c8_too_large_closes_before_write (gw : String) (result_len : Nat)
    (body : String) (h : RESULT_CAPACITY - 1 < result_len) :
    (respondToGet gw result_len body).1 = .closedTooLargeResult ∧
    ((respondToGet gw result_len body).1).writes = [] := by
  have ht : respondToGet gw result_len body = (.closedTooLargeResult, 0) := by
    unfold respondToGet
    rw [if_pos h]
  exact ⟨by rw [ht], by rw [ht]; rfl⟩

/-- Claim C8, witness: a hypothetical 300-byte body is rejected with no
write. -/
theorem c8_witness :
    (respondToGet IP_GW 300 "").1 = .closedTooLargeResult ∧
    ((respondToGet IP_GW 300 "").1).writes = [] :=
  c8_too_large_closes_before_write IP_GW 300 "" (by decide)

set_option maxRecDepth 32768 in
/-- Processing `GET /alarm?alarm=1 HTTP/1.1` from any state arms the alarm
and answers 200 with the ATIVADO page (header length 94, body length 205). -/
theorem tcp_server_recv_arm (gw : String) (st : TCP_SERVER_T) :
    tcp_server_recv gw st ("GET /alarm?alarm=1 HTTP/1.1".toList) =
      ⟨{ st with alarm_active := true },
        .responded (HTTP_RESPONSE_HEADERS 200 205)
          (some (ALARM_CONTROL_BODY "ATIVADO" 0 "Desligar")), 94, 205⟩ := by
  have hsplit : splitRequest ((("GET /alarm?alarm=1 HTTP/1.1".toList).take
      (HEADERS_CAPACITY - 1)).drop (HTTP_GET.length + 1)) =
      ("/alarm".toList, some ("alarm=1".toList)) := by decide
  have hcontent : alarm_control_content ("/alarm".toList)
      (some ("alarm=1".toList)) st =
      ({ st with alarm_active := true },
        ALARM_CONTROL_BODY "ATIVADO" 0 "Desligar") := rfl
  have hlen : (ALARM_CONTROL_BODY "ATIVADO" 0 "Desligar").length = 205 := rfl
  have hresp : respondToGet gw 205 (ALARM_CONTROL_BODY "ATIVADO" 0 "Desligar") =
      (.responded (HTTP_RESPONSE_HEADERS 200 205)
        (some (ALARM_CONTROL_BODY "ATIVADO" 0 "Desligar")), 94) := rfl
  unfold tcp_server_recv
  rw [if_pos (by decide)]
  dsimp only
  rw [hsplit]
  dsimp only
  rw [hcontent]
  dsimp only
  rw [hlen, hresp]

set_option maxRecDepth 32768 in
/-- Claim C9: processing `GET /alarm?alarm=1 HTTP/1.1` twice in succession,
from any starting state, is idempotent: after each request `alarm_active`
is true, both responses are the 200 page, and the two generated response
bodies (and headers) are byte-identical. -/
theorem c9_idempotent_arm_twice (gw : String) (st : TCP_SERVER_T) :
    (tcp_server_recv gw st
      ("GET /alarm?alarm=1 HTTP/1.1".toList)).state.alarm_active = true ∧
    (tcp_server_recv gw
      (tcp_server_recv gw st ("GET /alarm?alarm=1 HTTP/1.1".toList)).state
      ("GET /alarm?alarm=1 HTTP/1.1".toList)).state.alarm_active = true ∧
    (tcp_server_recv gw st ("GET /alarm?alarm=1 HTTP/1.1".toList)).outcome =
      .responded (HTTP_RESPONSE_HEADERS 200 205)
        (some (ALARM_CONTROL_BODY "ATIVADO" 0 "Desligar")) ∧
    (tcp_server_recv gw
      (tcp_server_recv gw st ("GET /alarm?alarm=1 HTTP/1.1".toList)).state
      ("GET /alarm?alarm=1 HTTP/1.1".toList)).outcome =
      (tcp_server_recv gw st
        ("GET /alarm?alarm=1 HTTP/1.1".toList)).outcome := by
  rw [tcp_server_recv_arm gw st]
  dsimp only
  rw [tcp_server_recv_arm gw { st with alarm_active := true }]
  exact ⟨rfl, rfl, rfl, rfl⟩

/-- Claim C10: any query that `sscanf` parses as `alarm=<n>` — for ANY
integer `n`, not only 0 or 1 — is accepted and sets `alarm_active` to the
truth value of `n ≠ 0`; in particular `alarm=2` and `alarm=-1` arm the
alarm and `alarm=0` disarms it. -/
theorem c10_any_int_accepted (st : TCP_SERVER_T) (q : List Char) (n : Int)
    (h : sscanf_alarm q = some n) :
    (alarm_control_content ALARM_CONTROL.toList (some q) st).1.alarm_active =
      decide (n ≠ 0) ∧
    sscanf_alarm ("alarm=2".toList) = some 2 ∧
    sscanf_alarm ("alarm=-1".toList) = some (-1) ∧
    (alarm_control_content ALARM_CONTROL.toList (some ("alarm=2".toList))
      st).1.alarm_active = true ∧
    (alarm_control_content ALARM_CONTROL.toList (some ("alarm=-1".toList))
      st).1.alarm_active = true ∧
    (alarm_control_content ALARM_CONTROL.toList (some ("alarm=0".toList))
      st).1.alarm_active = false := by
  refine ⟨?_, by decide, by decide, rfl, rfl, rfl⟩
  unfold alarm_control_content
  simp only [h]
  split
  · split <;> rfl
  · next hp => exact absurd alarm_prefix_self hp

/-- Claim C10, witness: `alarm=2` parses to 2 and arms the alarm from the
initial state. -/
theorem c10_witness :
    (alarm_control_content ALARM_CONTROL.toList (some ("alarm=2".toList))
      initServerState).1.alarm_active = decide ((2 : Int) ≠ 0) ∧
    sscanf_alarm ("alarm=2".toList) = some 2 ∧
    sscanf_alarm ("alarm=-1".toList) = some (-1) ∧
    (alarm_control_content ALARM_CONTROL.toList (some ("alarm=2".toList))
      initServerState).1.alarm_active = true ∧
    (alarm_control_content ALARM_CONTROL.toList (some ("alarm=-1".toList))
      initServerState).1.alarm_active = true ∧
    (alarm_control_content ALARM_CONTROL.toList (some ("alarm=0".toList))
      initServerState).1.alarm_active = false :=
  c10_any_int_accepted initServerState ("alarm=2".toList) 2 (by decide)
